import Mathlib

/-!
Shallow embedding of app/wellness_engine.py from the face-app repository.

Python floats are modelled as rationals.  The dicts returned by the four
entry points are modelled as structures whose Option-valued fields record
which keys the corresponding branch of the Python code actually sets.
datetime.now() (line 44-46) is modelled by an explicit String parameter
threading the formatted current time into each entry point.
-/

namespace Wellness

/-- A raw sensor record: a Python dict in which any of the recognised keys
may be absent.  Numeric values are modelled as rationals; the motion keys
hold strings. -/
structure RawRecord where
  HR : Option Rat := none
  heartRate : Option Rat := none
  heart_rate : Option Rat := none
  RMSSD : Option Rat := none
  rmssd : Option Rat := none
  Lux : Option Rat := none
  lux : Option Rat := none
  Temp : Option Rat := none
  temperature : Option Rat := none
  Motion : Option String := none
  motion : Option String := none
  timestamp : Option String := none
deriving DecidableEq, Repr

/-- Python round() rounds half to even (banker's rounding). -/
def roundHalfEven (x : Rat) : Int :=
  let f : Int := x.floor
  let r : Rat := x - (f : Rat)
  if r < 1/2 then f
  else if 1/2 < r then f + 1
  else if f % 2 = 0 then f else f + 1

/-- Python round(x, 1). -/
def round1 (x : Rat) : Rat := (roundHalfEven (x * 10) : Rat) / 10

/-- Python round(x, 2). -/
def round2 (x : Rat) : Rat := (roundHalfEven (x * 100) : Rat) / 100

/-- Canonical record produced by the normalization loop of analyze_sleep
(lines 80-90). -/
structure NRecord where
  hr : Rat
  rmssd : Rat
  lux : Rat
  temp : Rat
  motion : String
  timestamp : String
deriving DecidableEq, Repr

/-- analyze_sleep lines 82-89: per-record field-name normalization.
record.get(k, record.get(k2, 0)) is Option.getD on the first key with the
Option.getD of the second as fallback. -/
def normalizeRecord (r : RawRecord) : NRecord :=
  { hr := r.HR.getD (r.heartRate.getD 0),
    rmssd := r.RMSSD.getD (r.rmssd.getD 0),
    lux := r.Lux.getD (r.lux.getD 0),
    temp := r.Temp.getD (r.temperature.getD 0),
    motion := (r.Motion.getD (r.motion.getD "NO")).toUpper,
    timestamp := r.timestamp.getD "" }

/-- The aggregation pattern sum(positive entries) / max(1, their count)
used for avg_hr (line 93, line 255) and avg_rmssd over a period
(line 179). -/
def avgPos (xs : List Rat) : Rat :=
  let pos := xs.filter (fun x => decide (0 < x))
  pos.sum / ((max 1 pos.length : Nat) : Rat)

/-- Lines 101-105: the per-reading sleep predicate, parametrized by the
whole-sequence positive-HR average. -/
def isSleeping (avg_hr : Rat) (d : NRecord) : Bool :=
  d.motion == "NO" && decide (d.lux < 10) &&
    (decide (d.hr < avg_hr * 0.85) || d.hr == 0)

/-- A detected period: start index, end index and the accumulated records
(lines 114-118). -/
structure Period where
  start_idx : Nat
  end_idx : Nat
  records : List NRecord
deriving DecidableEq, Repr

/-- Lines 100-128: left-to-right scan accumulating a run of sleep-predicate
readings; a run is flushed as a period when it ends (or at the end of the
data, with end_idx = length - 1) provided it holds at least 3 records. -/
def sleepScanAux (avg_hr : Rat) :
    List NRecord → Nat → Option Nat → List NRecord → List Period
  | [], n, cur, recs =>
    (match cur with
     | some s => if 3 ≤ recs.length then [⟨s, n - 1, recs⟩] else []
     | none => [])
  | d :: rest, i, cur, recs =>
    if isSleeping avg_hr d then
      match cur with
      | some s => sleepScanAux avg_hr rest (i + 1) (some s) (recs ++ [d])
      | none => sleepScanAux avg_hr rest (i + 1) (some i) (recs ++ [d])
    else
      (match cur with
       | some s => if 3 ≤ recs.length then [⟨s, i - 1, recs⟩] else []
       | none => []) ++ sleepScanAux avg_hr rest (i + 1) none []

/-- The normalized sequence (lines 80-90). -/
def normalizedOf (data : List RawRecord) : List NRecord :=
  data.map normalizeRecord

/-- Line 93: whole-sequence average of the strictly positive hr values. -/
def avgHrOf (data : List RawRecord) : Rat :=
  avgPos ((normalizedOf data).map (fun d => d.hr))

/-- Lines 96-128: the list of detected sleep periods. -/
def sleepPeriodsOf (data : List RawRecord) : List Period :=
  sleepScanAux (avgHrOf data) (normalizedOf data) 0 none []

/-- Line 144: Python max(sleep_periods, key=len of records); the first
maximum wins, and None stands for the empty-candidate case. -/
def maxByLen (ps : List Period) : Option Period :=
  ps.foldl (fun best p =>
    match best with
    | none => some p
    | some b => if b.records.length < p.records.length then some p else some b) none

/-- The selected (longest) sleep period, if any. -/
def selectedPeriod (data : List RawRecord) : Option Period :=
  maxByLen (sleepPeriodsOf data)

/-- Lines 152-159: duration sub-score from the period length in hours. -/
def durationScore (h : Rat) : Rat :=
  if 7 ≤ h ∧ h ≤ 9 then 100
  else if (6 ≤ h ∧ h < 7) ∨ (9 < h ∧ h ≤ 10) then 80
  else if h < 6 then max 20 (60 - (6 - h) * 15)
  else max 20 (80 - (h - 9) * 10)

/-- Lines 170-175: environment sub-score from the period average lux. -/
def envScore (avg_lux : Rat) : Rat :=
  if avg_lux < 5 then 100
  else if avg_lux < 20 then 70
  else max 30 (70 - (avg_lux - 20) * 2)

/-- Lines 180-185: HRV recovery sub-score from the period average of the
strictly positive RMSSD values. -/
def hrvRecoveryScore (avg_rmssd : Rat) : Rat :=
  if 40 < avg_rmssd then 100
  else if 20 < avg_rmssd then 70 + (avg_rmssd - 20) * 1.5
  else max 30 (avg_rmssd * 2)

/-- The quality_factors dict: either a reason (no-sleep branch, line 138)
or the four sub-scores (lines 161-186). -/
structure QualityFactors where
  reason : Option String := none
  duration_score : Option Rat := none
  consistency_score : Option Rat := none
  environment_score : Option Rat := none
  hrv_recovery_score : Option Rat := none
deriving DecidableEq, Repr

/-- The dict returned by analyze_sleep.  Option fields mark keys that only
some branches set. -/
structure SleepResult where
  error : Option String := none
  sleep_detected : Option Bool := none
  sleep_start : Option String := none
  sleep_end : Option String := none
  total_duration_hours : Option Rat := none
  sleep_score : Rat
  sleep_quality : String
  quality_factors : Option QualityFactors := none
  current_time : Option String := none
deriving DecidableEq, Repr

/-- wellness_engine.analyze_sleep (lines 49-217). -/
def analyze_sleep (sensor_data : List RawRecord) (now : String) : SleepResult :=
  if sensor_data = [] then
    { error := some "No sensor data available",
      sleep_score := 0,
      sleep_quality := "Unknown" }
  else
    match selectedPeriod sensor_data with
    | none =>
      { sleep_detected := some false,
        sleep_start := none,
        sleep_end := none,
        total_duration_hours := some 0,
        sleep_score := 30,
        sleep_quality := "Poor",
        quality_factors := some { reason := some "No sleep period detected in sensor data" } }
    | some longest_period =>
      let sleep_duration_hours : Rat := (longest_period.records.length : Rat) / 60
      let duration_score := durationScore sleep_duration_hours
      let motion_consistency : Rat :=
        ((longest_period.records.filter (fun r => r.motion == "NO")).length : Rat) /
          (longest_period.records.length : Rat)
      let consistency_score := motion_consistency * 100
      let avg_lux :=
        (longest_period.records.map (fun r => r.lux)).sum /
          (longest_period.records.length : Rat)
      let env_score := envScore avg_lux
      let avg_rmssd := avgPos (longest_period.records.map (fun r => r.rmssd))
      let hrv_score := hrvRecoveryScore avg_rmssd
      let final_score :=
        duration_score * 0.35 + consistency_score * 0.25 +
          env_score * 0.20 + hrv_score * 0.20
      let quality :=
        if 75 ≤ final_score then "Good"
        else if 50 ≤ final_score then "OK"
        else "Poor"
      { sleep_detected := some true,
        sleep_start := some ((longest_period.records.head?.map (fun r => r.timestamp)).getD "Unknown"),
        sleep_end := some ((longest_period.records.getLast?.map (fun r => r.timestamp)).getD "Unknown"),
        total_duration_hours := some (round2 sleep_duration_hours),
        sleep_score := round1 final_score,
        sleep_quality := quality,
        quality_factors := some
          { reason := none,
            duration_score := some (round1 duration_score),
            consistency_score := some (round1 consistency_score),
            environment_score := some (round1 env_score),
            hrv_recovery_score := some (round1 hrv_score) },
        current_time := some now }

/-- Canonical record produced by the normalization loop of detect_sedentary
(lines 244-252): only hr, lux, motion, timestamp are kept there. -/
structure SedRecord where
  hr : Rat
  lux : Rat
  motion : String
  timestamp : String
deriving DecidableEq, Repr

/-- detect_sedentary lines 246-251. -/
def normalizeSedRecord (r : RawRecord) : SedRecord :=
  { hr := r.HR.getD (r.heartRate.getD 0),
    lux := r.Lux.getD (r.lux.getD 0),
    motion := (r.Motion.getD (r.motion.getD "NO")).toUpper,
    timestamp := r.timestamp.getD "" }

/-- Lines 259-263: the sleep predicate recomputed inside detect_sedentary.
Membership of an index in the sleep_indices set (lines 257-265) is exactly
this predicate evaluated at the record with that index. -/
def isSleepingSed (avg_hr : Rat) (d : SedRecord) : Bool :=
  d.motion == "NO" && decide (d.lux < 10) &&
    (decide (d.hr < avg_hr * 0.85) || d.hr == 0)

/-- Line 286: awake-and-sedentary predicate. -/
def isSedentary (d : SedRecord) : Bool :=
  d.motion == "NO" && decide ((10 : Rat) ≤ d.lux)

/-- A sedentary period (lines 276-280): duration_minutes is the number of
accumulated readings. -/
structure SedPeriod where
  start_idx : Nat
  end_idx : Nat
  duration_minutes : Nat
deriving DecidableEq, Repr

/-- Lines 272-309: the sedentary scan.  A sleep index flushes any
in-progress run (kept only when it holds at least 5 readings) and is
skipped; a sedentary reading extends the run; anything else flushes the
run; at the end of the data an ongoing run is flushed with
end_idx = length - 1. -/
def sedScanAux (avg_hr : Rat) :
    List SedRecord → Nat → Option Nat → Nat → List SedPeriod
  | [], n, cur, cnt =>
    (match cur with
     | some s => if 5 ≤ cnt then [⟨s, n - 1, cnt⟩] else []
     | none => [])
  | d :: rest, i, cur, cnt =>
    if isSleepingSed avg_hr d then
      (match cur with
       | some s => if 5 ≤ cnt then [⟨s, i - 1, cnt⟩] else []
       | none => []) ++ sedScanAux avg_hr rest (i + 1) none 0
    else if isSedentary d then
      match cur with
      | some s => sedScanAux avg_hr rest (i + 1) (some s) (cnt + 1)
      | none => sedScanAux avg_hr rest (i + 1) (some i) (cnt + 1)
    else
      (match cur with
       | some s => if 5 ≤ cnt then [⟨s, i - 1, cnt⟩] else []
       | none => []) ++ sedScanAux avg_hr rest (i + 1) none 0

/-- The normalized sequence of detect_sedentary. -/
def sedNormalizedOf (data : List RawRecord) : List SedRecord :=
  data.map normalizeSedRecord

/-- Line 255: whole-sequence positive-HR average inside detect_sedentary. -/
def sedAvgHrOf (data : List RawRecord) : Rat :=
  avgPos ((sedNormalizedOf data).map (fun d => d.hr))

/-- Lines 268-309: the list of detected sedentary periods. -/
def sedentaryPeriodsOf (data : List RawRecord) : List SedPeriod :=
  sedScanAux (sedAvgHrOf data) (sedNormalizedOf data) 0 none 0

/-- The dict returned by detect_sedentary. -/
structure SedResult where
  error : Option String := none
  sedentary_duration_minutes : Option Rat := none
  sedentary_status : String
  longest_sedentary_period_minutes : Option Rat := none
  sedentary_periods_count : Option Nat := none
  recommendation : Option String := none
  current_time : Option String := none
deriving DecidableEq, Repr

/-- wellness_engine.detect_sedentary (lines 220-335). -/
def detect_sedentary (sensor_data : List RawRecord) (now : String) : SedResult :=
  if sensor_data = [] then
    { error := some "No sensor data available",
      sedentary_status := "unknown" }
  else
    let normalized_data := sedNormalizedOf sensor_data
    let avg_hr := sedAvgHrOf sensor_data
    let sedentary_periods := sedentaryPeriodsOf sensor_data
    let total_sedentary_minutes : Nat :=
      (sedentary_periods.map (fun p => p.duration_minutes)).sum
    let longest_period : Nat :=
      (sedentary_periods.map (fun p => p.duration_minutes)).foldr max 0
    let status :=
      match normalized_data.getLast? with
      | none => "unknown"
      | some last_record =>
        if isSleepingSed avg_hr last_record then "sleeping"
        else if last_record.motion == "YES" then "active"
        else "sedentary"
    { sedentary_duration_minutes := some (round1 (total_sedentary_minutes : Rat)),
      sedentary_status := status,
      longest_sedentary_period_minutes := some (round1 (longest_period : Rat)),
      sedentary_periods_count := some sedentary_periods.length,
      recommendation := some
        (if 60 < (total_sedentary_minutes : Rat) then "Take a 5-minute break every hour"
         else "Good activity level"),
      current_time := some now }

/-- Line 367 / 368 of score_hrv: hr values with the strictly positive
filter applied. -/
def hrValuesOf (data : List RawRecord) : List Rat :=
  (data.map (fun r => r.HR.getD (r.heartRate.getD 0))).filter (fun x => decide (0 < x))

/-- score_hrv: positive rmssd values. -/
def rmssdValuesOf (data : List RawRecord) : List Rat :=
  (data.map (fun r => r.RMSSD.getD (r.rmssd.getD 0))).filter (fun x => decide (0 < x))

/-- The dict returned by score_hrv.  Python reports
heart_rate_variability_std = round(sqrt(variance), 1); the square root of a
rational is irrational in general, so the embedding records the variance
(the square of the reported std) under heart_rate_variability_std_sq; every
claim touching this field depends only on it being a function of the
input. -/
structure HrvResult where
  error : Option String := none
  hrv_score : Option Rat := none
  stress_level : String
  avg_heart_rate : Option Rat := none
  avg_rmssd : Option Rat := none
  heart_rate_variability_std_sq : Option Rat := none
  recommendations : Option (List String) := none
  current_time : Option String := none
deriving DecidableEq, Repr

/-- score_hrv lines 386-408: the primary (score, stress tier) pair from
avg RMSSD, with the pure-HR fallback when no positive RMSSD exists. -/
def hrvBase (avg_rmssd avg_hr : Rat) : Rat × String :=
  if 60 ≤ avg_rmssd then (95, "low")
  else if 40 ≤ avg_rmssd then (70 + (avg_rmssd - 40) * 1.25, "low")
  else if 20 ≤ avg_rmssd then (40 + (avg_rmssd - 20) * 1.5, "medium")
  else if 0 < avg_rmssd then (20 + avg_rmssd, "high")
  else if avg_hr < 70 then (70, "low")
  else if avg_hr < 85 then (50, "medium")
  else (30, "high")

/-- score_hrv lines 411-418: the variability penalty.  Python tests
std > 15 where std is the nonnegative square root of the population
variance; the test is modelled by the equivalent variance > 225. -/
def hrvAdjust (n : Nat) (hr_variance : Rat) (base : Rat × String) : Rat × String :=
  if 1 < n then
    if 225 < hr_variance then
      (max 20 (base.1 - 15), if base.2 == "low" then "medium" else "high")
    else base
  else base

/-- wellness_engine.score_hrv (lines 338-450). -/
def score_hrv (sensor_data : List RawRecord) (now : String) : HrvResult :=
  if sensor_data = [] then
    { error := some "No sensor data available",
      stress_level := "unknown" }
  else
    let hr_values := hrValuesOf sensor_data
    let rmssd_values := rmssdValuesOf sensor_data
    if hr_values = [] then
      { error := some "No valid heart rate data",
        stress_level := "unknown" }
    else
      let avg_hr := hr_values.sum / (hr_values.length : Rat)
      let avg_rmssd : Rat :=
        if rmssd_values = [] then 0 else rmssd_values.sum / (rmssd_values.length : Rat)
      let hr_variance :=
        (hr_values.map (fun x => (x - avg_hr) ^ 2)).sum / (hr_values.length : Rat)
      let adjusted : Rat × String :=
        hrvAdjust hr_values.length hr_variance (hrvBase avg_rmssd avg_hr)
      let hrv_score := adjusted.1
      let stress_level := adjusted.2
      let recommendations : List String :=
        if stress_level == "high" then
          ["Practice deep breathing exercises (4-7-8 technique)",
           "Take regular breaks throughout the day",
           "Consider meditation or mindfulness practice",
           "Ensure adequate sleep (7-9 hours)"]
        else if stress_level == "medium" then
          ["Maintain regular physical activity",
           "Practice stress management techniques",
           "Monitor your sleep quality"]
        else
          ["Keep up your healthy habits",
           "Continue regular exercise routine",
           "Maintain good sleep hygiene"]
      { hrv_score := some (round1 hrv_score),
        stress_level := stress_level,
        avg_heart_rate := some (round1 avg_hr),
        avg_rmssd := if 0 < avg_rmssd then some (round1 avg_rmssd) else none,
        heart_rate_variability_std_sq :=
          some (if 1 < hr_values.length then hr_variance else 0),
        recommendations := some recommendations,
        current_time := some now }

/-- compute_burnout lines 493-502: sedentary-minutes threshold ladder. -/
def sedentaryBurnoutOf (m : Rat) : Rat :=
  if 480 < m then 90
  else if 360 < m then 70
  else if 240 < m then 50
  else if 120 < m then 30
  else 10

/-- compute_burnout lines 520-525: light sub-burnout. -/
def lightBurnoutOf (avg_lux : Rat) : Rat :=
  if 200 ≤ avg_lux ∧ avg_lux ≤ 500 then 10
  else if (100 ≤ avg_lux ∧ avg_lux < 200) ∨ (500 < avg_lux ∧ avg_lux ≤ 1000) then 40
  else 70

/-- compute_burnout lines 528-533: temperature sub-burnout. -/
def tempBurnoutOf (avg_temp : Rat) : Rat :=
  if 20 ≤ avg_temp ∧ avg_temp ≤ 24 then 10
  else if (18 ≤ avg_temp ∧ avg_temp < 20) ∨ (24 < avg_temp ∧ avg_temp ≤ 26) then 40
  else 70

/-- compute_burnout lines 538-543: the weighted burnout total. -/
def burnoutTotal (sleep_b sed_b stress_b env_b : Rat) : Rat :=
  sleep_b * 0.30 + sed_b * 0.25 + stress_b * 0.30 + env_b * 0.15

/-- compute_burnout lines 546-551: tier ladder. -/
def burnoutLevelOf (score : Rat) : String :=
  if 70 ≤ score then "high" else if 40 ≤ score then "medium" else "low"

/-- compute_burnout line 516: whole-sequence average lux. -/
def burnoutAvgLuxOf (data : List RawRecord) : Rat :=
  (data.map (fun r => r.Lux.getD (r.lux.getD 0))).sum / (data.length : Rat)

/-- compute_burnout line 517: whole-sequence average temperature. -/
def burnoutAvgTempOf (data : List RawRecord) : Rat :=
  (data.map (fun r => r.Temp.getD (r.temperature.getD 0))).sum / (data.length : Rat)

/-- contributing_factors dict (lines 554-562). -/
structure ContributingFactors where
  sleep_impact : Rat
  sedentary_impact : Rat
  stress_impact : Rat
  environment_impact : Rat
  sleep_quality : String
  sedentary_hours : Rat
  stress_level : String
deriving DecidableEq, Repr

/-- The dict returned by compute_burnout. -/
structure BurnoutResult where
  error : Option String := none
  burnout_score : Option Rat := none
  burnout_level : String
  contributing_factors : Option ContributingFactors := none
  recommendations : Option (List String) := none
  component_analyses : Option (SleepResult × SedResult × HrvResult) := none
  current_time : Option String := none
deriving DecidableEq, Repr

/-- wellness_engine.compute_burnout (lines 453-596). -/
def compute_burnout (sensor_data : List RawRecord) (now : String) : BurnoutResult :=
  if sensor_data = [] then
    { error := some "No sensor data available",
      burnout_level := "unknown" }
  else
    let sleep_analysis := analyze_sleep sensor_data now
    let sedentary_analysis := detect_sedentary sensor_data now
    let hrv_analysis := score_hrv sensor_data now
    let sleep_score := sleep_analysis.sleep_score
    let sleep_burnout := 100 - sleep_score
    let sedentary_minutes := sedentary_analysis.sedentary_duration_minutes.getD 0
    let sedentary_burnout := sedentaryBurnoutOf sedentary_minutes
    let hrv_score := hrv_analysis.hrv_score.getD 50
    let stress_burnout := 100 - hrv_score
    let avg_lux := burnoutAvgLuxOf sensor_data
    let avg_temp := burnoutAvgTempOf sensor_data
    let light_burnout := lightBurnoutOf avg_lux
    let temp_burnout := tempBurnoutOf avg_temp
    let env_burnout := (light_burnout + temp_burnout) / 2
    let burnout_score := burnoutTotal sleep_burnout sedentary_burnout stress_burnout env_burnout
    let burnout_level := burnoutLevelOf burnout_score
    let recommendations : List String :=
      (if 50 < sleep_burnout then ["Prioritize sleep: aim for 7-9 hours of quality sleep"] else []) ++
      (if 50 < sedentary_burnout then ["Reduce sedentary time: take breaks every 30-60 minutes"] else []) ++
      (if 50 < stress_burnout then
        ["Practice stress management: meditation, deep breathing",
         "Consider professional support if stress persists"] else []) ++
      (if 50 < env_burnout then ["Optimize your environment: adjust lighting and temperature"] else []) ++
      (if burnout_level == "low" then ["Great job! Maintain your healthy habits"] else [])
    { burnout_score := some (round1 burnout_score),
      burnout_level := burnout_level,
      contributing_factors := some
        { sleep_impact := round1 sleep_burnout,
          sedentary_impact := round1 sedentary_burnout,
          stress_impact := round1 stress_burnout,
          environment_impact := round1 env_burnout,
          sleep_quality := sleep_analysis.sleep_quality,
          sedentary_hours := round1 (sedentary_minutes / 60),
          stress_level := hrv_analysis.stress_level },
      recommendations := some recommendations,
      component_analyses := some (sleep_analysis, sedentary_analysis, hrv_analysis),
      current_time := some now }

/-- Variant of the sedentary scan with the sleep-index exclusion branch
(lines 273-283) removed, as described by the refinement claim: every index
is classified only by the sedentary predicate. -/
def sedScanAuxNoSkip :
    List SedRecord → Nat → Option Nat → Nat → List SedPeriod
  | [], n, cur, cnt =>
    (match cur with
     | some s => if 5 ≤ cnt then [⟨s, n - 1, cnt⟩] else []
     | none => [])
  | d :: rest, i, cur, cnt =>
    if isSedentary d then
      match cur with
      | some s => sedScanAuxNoSkip rest (i + 1) (some s) (cnt + 1)
      | none => sedScanAuxNoSkip rest (i + 1) (some i) (cnt + 1)
    else
      (match cur with
       | some s => if 5 ≤ cnt then [⟨s, i - 1, cnt⟩] else []
       | none => []) ++ sedScanAuxNoSkip rest (i + 1) none 0

/-- The sedentary-period list computed without the sleep-index exclusion. -/
def sedentaryPeriodsNoSkipOf (data : List RawRecord) : List SedPeriod :=
  sedScanAuxNoSkip (sedNormalizedOf data) 0 none 0

/-- detect_sedentary as it would behave with the sleep-index set removed
entirely: the periods come from the no-skip scan and the final status knows
nothing about sleeping. -/
def detectSedentaryNoExclusion (sensor_data : List RawRecord) (now : String) : SedResult :=
  if sensor_data = [] then
    { error := some "No sensor data available",
      sedentary_status := "unknown" }
  else
    let normalized_data := sedNormalizedOf sensor_data
    let sedentary_periods := sedentaryPeriodsNoSkipOf sensor_data
    let total_sedentary_minutes : Nat :=
      (sedentary_periods.map (fun p => p.duration_minutes)).sum
    let longest_period : Nat :=
      (sedentary_periods.map (fun p => p.duration_minutes)).foldr max 0
    let status :=
      match normalized_data.getLast? with
      | none => "unknown"
      | some last_record =>
        if last_record.motion == "YES" then "active"
        else "sedentary"
    { sedentary_duration_minutes := some (round1 (total_sedentary_minutes : Rat)),
      sedentary_status := status,
      longest_sedentary_period_minutes := some (round1 (longest_period : Rat)),
      sedentary_periods_count := some sedentary_periods.length,
      recommendation := some
        (if 60 < (total_sedentary_minutes : Rat) then "Take a 5-minute break every hour"
         else "Good activity level"),
      current_time := some now }

/-- The predicate P evaluated at index k of a list; false beyond the end. -/
def predAt (P : NRecord → Bool) : List NRecord → Nat → Bool
  | [], _ => false
  | d :: _, 0 => P d
  | _ :: l, k + 1 => predAt P l k

lemma length_dropWhile_le_len {α : Type} (p : α → Bool) :
    ∀ l : List α, (l.dropWhile p).length ≤ l.length := by
  intro l
  induction l with
  | nil => simp
  | cons d rest ih =>
    by_cases h : p d
    · rw [List.dropWhile_cons_of_pos h]; exact Nat.le_trans ih (Nat.le_succ _)
    · rw [List.dropWhile_cons_of_neg h]

/-- Top-down reformulation of the sleep scan: each maximal run of
P-satisfying readings at the head is closed at once (kept when it has at
least 3 records) and the scan continues right after the run. -/
def runsSpec (P : NRecord → Bool) (l : List NRecord) (i : Nat) : List Period :=
  match l with
  | [] => []
  | d :: rest =>
    if P d then
      (if 3 ≤ (d :: rest.takeWhile P).length then
        [⟨i, i + (d :: rest.takeWhile P).length - 1, d :: rest.takeWhile P⟩]
       else []) ++
        runsSpec P (rest.dropWhile P) (i + (d :: rest.takeWhile P).length)
    else runsSpec P rest (i + 1)
termination_by l.length
decreasing_by
  all_goals simp only [List.length_cons]
  · exact Nat.lt_succ_of_le (length_dropWhile_le_len P rest)
  · exact Nat.lt_succ_self _

/-- Closing a pending run: the scan carrying an open run first extends it
maximally, flushes it (when long enough), and continues with a fresh
state. -/
lemma sleepScanAux_pending (avg : Rat) :
    ∀ (l : List NRecord) (i s : Nat) (recs : List NRecord),
      sleepScanAux avg l i (some s) recs =
        (if 3 ≤ (recs ++ l.takeWhile (isSleeping avg)).length
         then [⟨s, i + (l.takeWhile (isSleeping avg)).length - 1,
                recs ++ l.takeWhile (isSleeping avg)⟩]
         else []) ++
          sleepScanAux avg (l.dropWhile (isSleeping avg))
            (i + (l.takeWhile (isSleeping avg)).length) none [] := by
  intro l
  induction l with
  | nil => intro i s recs; simp [sleepScanAux]
  | cons d rest ih =>
    intro i s recs
    by_cases h : isSleeping avg d = true
    · rw [show sleepScanAux avg (d :: rest) i (some s) recs =
            sleepScanAux avg rest (i + 1) (some s) (recs ++ [d]) by
          simp [sleepScanAux, h]]
      rw [ih]
      rw [List.takeWhile_cons_of_pos h, List.dropWhile_cons_of_pos h]
      have h1 : i + (d :: rest.takeWhile (isSleeping avg)).length =
          i + 1 + (rest.takeWhile (isSleeping avg)).length := by
        simp [List.length_cons]; omega
      have h2 : recs ++ d :: rest.takeWhile (isSleeping avg) =
          (recs ++ [d]) ++ rest.takeWhile (isSleeping avg) := by
        simp
      rw [h1, h2]
    · rw [List.takeWhile_cons_of_neg (by simp [h]), List.dropWhile_cons_of_neg (by simp [h])]
      simp only [List.append_nil, List.length_nil, Nat.add_zero]
      simp [sleepScanAux, h]

/-- The scan started in the fresh state computes exactly runsSpec. -/
lemma sleepScanAux_none_eq_runsSpec (avg : Rat) :
    ∀ (n : Nat) (l : List NRecord), l.length ≤ n → ∀ i,
      sleepScanAux avg l i none [] = runsSpec (isSleeping avg) l i := by
  intro n
  induction n with
  | zero =>
    intro l hl i
    have hnil : l = [] := by
      cases l with
      | nil => rfl
      | cons d rest => simp at hl
    subst hnil
    simp [sleepScanAux, runsSpec]
  | succ n ih =>
    intro l hl i
    cases l with
    | nil => simp [sleepScanAux, runsSpec]
    | cons d rest =>
      have hrest : rest.length ≤ n := by simp at hl; omega
      by_cases h : isSleeping avg d = true
      · have hlen : (rest.dropWhile (isSleeping avg)).length ≤ n :=
          Nat.le_trans (length_dropWhile_le_len _ rest) hrest
        have step : sleepScanAux avg (d :: rest) i none [] =
            sleepScanAux avg rest (i + 1) (some i) ([] ++ [d]) := by
          simp [sleepScanAux, h]
        rw [step, sleepScanAux_pending, ih _ hlen, runsSpec]
        simp only [h, if_true, List.nil_append, List.singleton_append, List.length_cons]
        have e1 : i + 1 + (rest.takeWhile (isSleeping avg)).length =
            i + ((rest.takeWhile (isSleeping avg)).length + 1) := by omega
        rw [e1]
      · have step : sleepScanAux avg (d :: rest) i none [] =
            sleepScanAux avg rest (i + 1) none [] := by
          simp [sleepScanAux, h]
        rw [step, runsSpec]
        simp only [h, if_false]
        exact ih rest hrest (i + 1)

/-- The sleep-period list is runsSpec of the sleep predicate. -/
lemma sleepPeriodsOf_eq_runsSpec (data : List RawRecord) :
    sleepPeriodsOf data =
      runsSpec (isSleeping (avgHrOf data)) (normalizedOf data) 0 :=
  sleepScanAux_none_eq_runsSpec _ (normalizedOf data).length _ le_rfl 0

lemma length_takeWhile_le_len {α : Type} (p : α → Bool) :
    ∀ l : List α, (l.takeWhile p).length ≤ l.length := by
  intro l
  induction l with
  | nil => simp
  | cons d rest ih =>
    by_cases h : p d
    · rw [List.takeWhile_cons_of_pos h]; simpa using ih
    · rw [List.takeWhile_cons_of_neg h]; simp

lemma takeWhile_add_dropWhile_length (P : NRecord → Bool) (l : List NRecord) :
    (l.takeWhile P).length + (l.dropWhile P).length = l.length := by
  rw [← List.length_append, List.takeWhile_append_dropWhile]

lemma predAt_cons_succ (P : NRecord → Bool) (d : NRecord) (l : List NRecord) (k : Nat) :
    predAt P (d :: l) (k + 1) = predAt P l k := rfl

lemma predAt_cons_zero (P : NRecord → Bool) (d : NRecord) (l : List NRecord) :
    predAt P (d :: l) 0 = P d := rfl

lemma predAt_cons_shift (P : NRecord → Bool) (d : NRecord) (l : List NRecord)
    (k : Nat) (hk : 1 ≤ k) : predAt P (d :: l) k = predAt P l (k - 1) := by
  cases k with
  | zero => omega
  | succ k => rfl

lemma predAt_append_right (P : NRecord → Bool) :
    ∀ (l1 l2 : List NRecord) (k : Nat),
      predAt P (l1 ++ l2) (l1.length + k) = predAt P l2 k := by
  intro l1
  induction l1 with
  | nil => intro l2 k; simp
  | cons d rest ih =>
    intro l2 k
    have e : rest.length + 1 + k = (rest.length + k) + 1 := by omega
    simp only [List.cons_append, List.length_cons, e, predAt_cons_succ]
    exact ih l2 k

lemma predAt_tw_dw (P : NRecord → Bool) (l : List NRecord) (k : Nat) :
    predAt P l ((l.takeWhile P).length + k) = predAt P (l.dropWhile P) k := by
  have h := predAt_append_right P (l.takeWhile P) (l.dropWhile P) k
  rw [List.takeWhile_append_dropWhile] at h
  exact h

lemma predAt_takeWhile_true (P : NRecord → Bool) :
    ∀ (l : List NRecord) (k : Nat), k < (l.takeWhile P).length → predAt P l k = true := by
  intro l
  induction l with
  | nil => intro k hk; simp at hk
  | cons d rest ih =>
    intro k hk
    by_cases h : P d = true
    · rw [List.takeWhile_cons_of_pos h, List.length_cons] at hk
      cases k with
      | zero => exact h
      | succ k => exact ih k (by omega)
    · rw [List.takeWhile_cons_of_neg (by simp [h])] at hk; simp at hk

lemma takeWhile_length_ge_of_true (P : NRecord → Bool) :
    ∀ (l : List NRecord) (m : Nat), m ≤ l.length →
      (∀ j, j < m → predAt P l j = true) → m ≤ (l.takeWhile P).length := by
  intro l
  induction l with
  | nil => intro m hm _; simpa using hm
  | cons d rest ih =>
    intro m hm hall
    cases m with
    | zero => exact Nat.zero_le _
    | succ m =>
      have hd : P d = true := hall 0 (Nat.succ_pos _)
      rw [List.takeWhile_cons_of_pos hd, List.length_cons]
      have hrec : m ≤ (rest.takeWhile P).length :=
        ih m (by simp at hm; omega) (fun j hj => hall (j + 1) (by omega))
      omega

lemma takeWhile_length_le_of_false (P : NRecord → Bool) :
    ∀ (l : List NRecord) (m : Nat), predAt P l m = false →
      (l.takeWhile P).length ≤ m := by
  intro l
  induction l with
  | nil => intro m _; simp
  | cons d rest ih =>
    intro m hm
    by_cases h : P d = true
    · rw [List.takeWhile_cons_of_pos h, List.length_cons]
      cases m with
      | zero => rw [predAt_cons_zero] at hm; rw [hm] at h; cases h
      | succ m =>
        rw [predAt_cons_succ] at hm
        have := ih m hm
        omega
    · rw [List.takeWhile_cons_of_neg (by simp [h])]; simp

/-- Every period produced by runsSpec is a run of at least 3 readings whose
indices all satisfy the predicate, lying inside the scanned range. -/
lemma runsSpec_sound (P : NRecord → Bool) :
    ∀ (n : Nat) (l : List NRecord), l.length ≤ n → ∀ (i : Nat) (per : Period),
      per ∈ runsSpec P l i →
      3 ≤ per.records.length ∧
      per.end_idx + 1 = per.start_idx + per.records.length ∧
      i ≤ per.start_idx ∧
      per.end_idx + 1 ≤ i + l.length ∧
      (∀ j, per.start_idx ≤ j → j ≤ per.end_idx → predAt P l (j - i) = true) := by
  intro n
  induction n with
  | zero =>
    intro l hl i per hper
    have hnil : l = [] := by
      cases l with
      | nil => rfl
      | cons d rest => simp at hl
    subst hnil
    simp [runsSpec] at hper
  | succ n ih =>
    intro l hl i per hper
    cases l with
    | nil => simp [runsSpec] at hper
    | cons d rest =>
      have hrest : rest.length ≤ n := by simp at hl; omega
      rw [runsSpec] at hper
      by_cases h : P d = true
      · simp only [h, if_true, List.mem_append] at hper
        rcases hper with hmem | hrec
        · by_cases h3 : 3 ≤ (d :: rest.takeWhile P).length
          · rw [if_pos h3, List.mem_singleton] at hmem
            subst hmem
            simp only [List.length_cons] at h3 ⊢
            refine ⟨h3, by omega, le_refl i, ?_, ?_⟩
            · have := length_takeWhile_le_len P rest
              omega
            · intro j hj1 hj2
              have hle : j - i ≤ (rest.takeWhile P).length := by omega
              rcases Nat.eq_zero_or_pos (j - i) with hz | hp
              · rw [hz, predAt_cons_zero]; exact h
              · rw [predAt_cons_shift P d rest _ hp]
                exact predAt_takeWhile_true P rest _ (by omega)
          · rw [if_neg h3] at hmem; simp at hmem
        · have hlen : (rest.dropWhile P).length ≤ n :=
            Nat.le_trans (length_dropWhile_le_len _ rest) hrest
          obtain ⟨c1, c2, c3, c4, c5⟩ := ih _ hlen _ per hrec
          have hsplit := takeWhile_add_dropWhile_length P rest
          simp only [List.length_cons] at c3 c4 ⊢
          refine ⟨c1, c2, by omega, by omega, ?_⟩
          intro j hj1 hj2
          have hjs : i + ((rest.takeWhile P).length + 1) ≤ j := le_trans c3 hj1
          have hstep : predAt P (d :: rest) (j - i) = predAt P rest (j - i - 1) :=
            predAt_cons_shift P d rest _ (by omega)
          rw [hstep]
          have e : j - i - 1 = (rest.takeWhile P).length + (j - (i + ((rest.takeWhile P).length + 1))) := by
            omega
          rw [e, predAt_tw_dw]
          exact c5 j hj1 hj2
      · simp only [h, if_false] at hper
        obtain ⟨c1, c2, c3, c4, c5⟩ := ih rest hrest (i + 1) per hper
        simp only [List.length_cons]
        refine ⟨c1, c2, by omega, by omega, ?_⟩
        intro j hj1 hj2
        have hjs : i + 1 ≤ j := le_trans c3 hj1
        rw [predAt_cons_shift P d rest _ (by omega)]
        have e : j - i - 1 = j - (i + 1) := by omega
        rw [e]
        exact c5 j hj1 hj2

/-- Every maximal predicate run of length at least 3 is recorded by
runsSpec with exactly its extent. -/
lemma runsSpec_complete (P : NRecord → Bool) :
    ∀ (n : Nat) (l : List NRecord), l.length ≤ n → ∀ (i s len : Nat),
      3 ≤ len →
      i ≤ s →
      s + len ≤ i + l.length →
      (∀ j, j < len → predAt P l (s - i + j) = true) →
      (s = i ∨ predAt P l (s - i - 1) = false) →
      (s + len = i + l.length ∨ predAt P l (s - i + len) = false) →
      ∃ per, per ∈ runsSpec P l i ∧ per.start_idx = s ∧ per.end_idx + 1 = s + len := by
  intro n
  induction n with
  | zero =>
    intro l hl i s len h3 his hrange _ _ _
    have hnil : l = [] := by
      cases l with
      | nil => rfl
      | cons d rest => simp at hl
    subst hnil
    simp at hrange
    omega
  | succ n ih =>
    intro l hl i s len h3 his hrange hall hleft hright
    cases l with
    | nil => simp at hrange; omega
    | cons d rest =>
      have hrest : rest.length ≤ n := by simp at hl; omega
      simp only [List.length_cons] at hrange hright
      by_cases h : P d = true
      · by_cases hs : s = i
        · subst hs
          -- the run starts at the head; show the takeWhile has length len - 1
          have halls : ∀ j, j < len - 1 → predAt P rest j = true := by
            intro j hj
            have := hall (j + 1) (by omega)
            rw [show s - s + (j + 1) = j + 1 from by omega, predAt_cons_succ] at this
            exact this
          have hgelen : len - 1 ≤ (rest.takeWhile P).length :=
            takeWhile_length_ge_of_true P rest (len - 1) (by omega) halls
          have hlelen : (rest.takeWhile P).length ≤ len - 1 := by
            rcases hright with hend | hfalse
            · have := length_takeWhile_le_len P rest
              omega
            · rw [show s - s + len = (len - 1) + 1 from by omega, predAt_cons_succ] at hfalse
              exact takeWhile_length_le_of_false P rest _ hfalse
          have htw : (rest.takeWhile P).length = len - 1 := le_antisymm hlelen hgelen
          refine ⟨⟨s, s + (d :: rest.takeWhile P).length - 1, d :: rest.takeWhile P⟩, ?_, rfl, ?_⟩
          · rw [runsSpec]
            simp only [h, if_true, List.mem_append]
            left
            rw [if_pos (by simp [List.length_cons, htw]; omega)]
            simp
          · simp only [List.length_cons, htw]
            omega
        · -- the run starts strictly after the head run
          have hlm : predAt P (d :: rest) (s - i - 1) = false := by
            rcases hleft with hcon | hf
            · exact absurd hcon hs
            · exact hf
          have hs2 : i + 2 ≤ s := by
            rcases Nat.lt_or_ge s (i + 2) with hlt | hge
            · exfalso
              have hsi1 : s = i + 1 := by omega
              rw [hsi1] at hlm
              rw [show i + 1 - i - 1 = 0 from by omega, predAt_cons_zero] at hlm
              rw [hlm] at h
              cases h
            · exact hge
          have hlm2 : predAt P rest (s - i - 2) = false := by
            rw [show s - i - 1 = (s - i - 2) + 1 from by omega, predAt_cons_succ] at hlm
            exact hlm
          have hm : (rest.takeWhile P).length ≤ s - i - 2 :=
            takeWhile_length_le_of_false P rest _ hlm2
          have hsplit := takeWhile_add_dropWhile_length P rest
          have hdwlen : (rest.dropWhile P).length ≤ n :=
            Nat.le_trans (length_dropWhile_le_len _ rest) hrest
          -- translate all hypotheses to the suffix after the head run
          have hall2 : ∀ j, j < len →
              predAt P (rest.dropWhile P) (s - (i + ((rest.takeWhile P).length + 1)) + j) = true := by
            intro j hj
            have hx := hall j hj
            rw [predAt_cons_shift P d rest _ (by omega)] at hx
            rw [show s - i + j - 1 = (rest.takeWhile P).length +
                (s - (i + ((rest.takeWhile P).length + 1)) + j) from by omega] at hx
            rw [predAt_tw_dw] at hx
            exact hx
          have hleft2 : s = i + ((rest.takeWhile P).length + 1) ∨
              predAt P (rest.dropWhile P) (s - (i + ((rest.takeWhile P).length + 1)) - 1) = false := by
            right
            rw [show s - (i + ((rest.takeWhile P).length + 1)) - 1 =
                (s - i - 2) - (rest.takeWhile P).length from by omega]
            have hx := hlm2
            rw [show s - i - 2 = (rest.takeWhile P).length +
                ((s - i - 2) - (rest.takeWhile P).length) from by omega] at hx
            rw [predAt_tw_dw] at hx
            exact hx
          have hright2 : s + len = (i + ((rest.takeWhile P).length + 1)) + (rest.dropWhile P).length ∨
              predAt P (rest.dropWhile P) (s - (i + ((rest.takeWhile P).length + 1)) + len) = false := by
            rcases hright with hend | hfalse
            · left; omega
            · right
              rw [predAt_cons_shift P d rest _ (by omega)] at hfalse
              rw [show s - i + len - 1 = (rest.takeWhile P).length +
                  (s - (i + ((rest.takeWhile P).length + 1)) + len) from by omega] at hfalse
              rw [predAt_tw_dw] at hfalse
              exact hfalse
          obtain ⟨per, hmem, hst, hend⟩ :=
            ih (rest.dropWhile P) hdwlen (i + ((rest.takeWhile P).length + 1)) s len h3
              (by omega) (by omega) hall2 hleft2 hright2
          refine ⟨per, ?_, hst, hend⟩
          rw [runsSpec]
          simp only [h, if_true, List.mem_append, List.length_cons]
          right
          rw [show i + ((rest.takeWhile P).length + 1) =
              i + ((rest.takeWhile P).length + 1) from rfl] at hmem
          exact hmem
      · -- head fails the predicate, so the run lies in the tail
        have hsne : s ≠ i := by
          intro hcon
          subst hcon
          have := hall 0 (by omega)
          rw [show s - s + 0 = 0 from by omega, predAt_cons_zero] at this
          exact h this
        have hs1 : i + 1 ≤ s := by omega
        have hall2 : ∀ j, j < len → predAt P rest (s - (i + 1) + j) = true := by
          intro j hj
          have hx := hall j hj
          rw [predAt_cons_shift P d rest _ (by omega)] at hx
          rw [show s - i + j - 1 = s - (i + 1) + j from by omega] at hx
          exact hx
        have hleft2 : s = i + 1 ∨ predAt P rest (s - (i + 1) - 1) = false := by
          rcases Nat.eq_or_lt_of_le hs1 with heq | hlt
          · left; omega
          · right
            rcases hleft with hcon | hf
            · exact absurd hcon hsne
            · rw [predAt_cons_shift P d rest _ (by omega)] at hf
              rw [show s - i - 1 - 1 = s - (i + 1) - 1 from by omega] at hf
              exact hf
        have hright2 : s + len = (i + 1) + rest.length ∨
            predAt P rest (s - (i + 1) + len) = false := by
          rcases hright with hend | hfalse
          · left; omega
          · right
            rw [predAt_cons_shift P d rest _ (by omega)] at hfalse
            rw [show s - i + len - 1 = s - (i + 1) + len from by omega] at hfalse
            exact hfalse
        obtain ⟨per, hmem, hst, hend⟩ :=
          ih rest hrest (i + 1) s len h3 hs1 (by omega) hall2 hleft2 hright2
        refine ⟨per, ?_, hst, hend⟩
        rw [runsSpec]
        simp only [h, if_false]
        exact hmem

/-- Erase the wall-clock field of a sleep result. -/
def eraseTimeS (x : SleepResult) : SleepResult := { x with current_time := none }

/-- Erase the wall-clock field of a sedentary result. -/
def eraseTimeSed (x : SedResult) : SedResult := { x with current_time := none }

/-- Erase the wall-clock field of an HRV result. -/
def eraseTimeH (x : HrvResult) : HrvResult := { x with current_time := none }

/-- Erase the wall-clock fields of a burnout result, including those of the
nested component analyses. -/
def eraseTimeB (x : BurnoutResult) : BurnoutResult :=
  { x with
    current_time := none,
    component_analyses := x.component_analyses.map
      (fun t => (eraseTimeS t.1, eraseTimeSed t.2.1, eraseTimeH t.2.2)) }

/-- Three readings with motion NO, lux 0 and RMSSD 30 (heart rate absent,
hence 0). -/
def dataC1 : List RawRecord :=
  List.replicate 3 { Motion := some "NO", Lux := some 0, RMSSD := some 30 }

/-- The sleep period analyze_sleep selects on dataC1. -/
def periodC1 : Period :=
  ⟨0, 2, List.replicate 3
    { hr := 0, rmssd := 30, lux := 0, temp := 0, motion := "NO", timestamp := "" }⟩

/-- A single moving reading. -/
def dataC2 : List RawRecord := [{ Motion := some "YES" }]

/-- A raw record carrying only the heart_rate key spelling. -/
def heartRateUnderscoreRecord : RawRecord := { heart_rate := some 80 }

/-- Ten readings with motion NO, lux 2 and heart rate 55. -/
def dataC4 : List RawRecord :=
  List.replicate 10 { Motion := some "NO", Lux := some 2, HR := some 55 }

/-- Six readings: a maximal sleep run of length 2 (indices 0-1), a
non-sleep reading, then a maximal sleep run of length 3 (indices 3-5,
closed by the end of the sequence). -/
def dataC5 : List RawRecord :=
  [{ Motion := some "NO", Lux := some 0 },
   { Motion := some "NO", Lux := some 0 },
   { Motion := some "YES" },
   { Motion := some "NO", Lux := some 0 },
   { Motion := some "NO", Lux := some 0 },
   { Motion := some "NO", Lux := some 0 }]

/-- Four readings with heart rate 80 and bright light; used as a generic
witness input. -/
def dataW : List RawRecord :=
  List.replicate 4 { Motion := some "NO", Lux := some 300, HR := some 80, Temp := some 22 }

/-- Blank out the status field of a sedentary result, to compare
everything else. -/
def eraseStatusSed (x : SedResult) : SedResult := { x with sedentary_status := "" }

lemma analyze_sleep_erase (data : List RawRecord) (t1 t2 : String) :
    eraseTimeS (analyze_sleep data t1) = eraseTimeS (analyze_sleep data t2) := by
  unfold analyze_sleep
  split
  · rfl
  · split
    · rfl
    · rfl

lemma detect_sedentary_erase (data : List RawRecord) (t1 t2 : String) :
    eraseTimeSed (detect_sedentary data t1) = eraseTimeSed (detect_sedentary data t2) := by
  unfold detect_sedentary
  split
  · rfl
  · rfl

lemma score_hrv_erase (data : List RawRecord) (t1 t2 : String) :
    eraseTimeH (score_hrv data t1) = eraseTimeH (score_hrv data t2) := by
  unfold score_hrv
  split
  · rfl
  · dsimp only
    split
    · rfl
    · rfl

lemma compute_burnout_erase (data : List RawRecord) (t1 t2 : String) :
    eraseTimeB (compute_burnout data t1) = eraseTimeB (compute_burnout data t2) := by
  have e1 := analyze_sleep_erase data t1 t2
  have e2 := detect_sedentary_erase data t1 t2
  have e3 := score_hrv_erase data t1 t2
  have s1 : (analyze_sleep data t1).sleep_score = (analyze_sleep data t2).sleep_score := by
    simpa [eraseTimeS] using congrArg SleepResult.sleep_score e1
  have s2 : (analyze_sleep data t1).sleep_quality = (analyze_sleep data t2).sleep_quality := by
    simpa [eraseTimeS] using congrArg SleepResult.sleep_quality e1
  have s3 : (detect_sedentary data t1).sedentary_duration_minutes =
      (detect_sedentary data t2).sedentary_duration_minutes := by
    simpa [eraseTimeSed] using congrArg SedResult.sedentary_duration_minutes e2
  have s4 : (score_hrv data t1).hrv_score = (score_hrv data t2).hrv_score := by
    simpa [eraseTimeH] using congrArg HrvResult.hrv_score e3
  have s5 : (score_hrv data t1).stress_level = (score_hrv data t2).stress_level := by
    simpa [eraseTimeH] using congrArg HrvResult.stress_level e3
  unfold compute_burnout
  split
  · rfl
  · simp [eraseTimeB, s1, s2, s3, s4, s5, e1, e2, e3]

/-- C2 counterexample: detect_sedentary embeds the wall-clock time in its
result, so two calls with the same input at different times return
different mappings. -/
theorem c2_determinism_counterexample :
    detect_sedentary dataC2 "2024-01-01 10:00:00" ≠
      detect_sedentary dataC2 "2024-01-01 10:00:01" := by
  with_unfolding_all decide

/-- C2 (amended): each of the four entry points is a deterministic function
of the input sequence in every output field except current_time, which
reports the wall clock; erasing current_time (including in the nested
component analyses of compute_burnout) makes any two calls with the same
sequence identical. -/
theorem c2_deterministic_up_to_current_time (data : List RawRecord) (t1 t2 : String) :
    eraseTimeS (analyze_sleep data t1) = eraseTimeS (analyze_sleep data t2) ∧
    eraseTimeSed (detect_sedentary data t1) = eraseTimeSed (detect_sedentary data t2) ∧
    eraseTimeH (score_hrv data t1) = eraseTimeH (score_hrv data t2) ∧
    eraseTimeB (compute_burnout data t1) = eraseTimeB (compute_burnout data t2) :=
  ⟨analyze_sleep_erase data t1 t2, detect_sedentary_erase data t1 t2,
   score_hrv_erase data t1 t2, compute_burnout_erase data t1 t2⟩

/-- C1 counterexample: for three readings with motion NO, lux 0 and
RMSSD 30, a sleep period is selected whose positive-RMSSD average is 30
(inside the claimed 20 < avg ≤ 40 band); the claim's formula
70 + (30 - 40) * 1.5 gives 55, but analyze_sleep reports 85, which is
70 + (30 - 20) * 1.5. -/
theorem c1_hrv_recovery_counterexample :
    (selectedPeriod dataC1).map (fun p => avgPos (p.records.map (fun r => r.rmssd))) =
      some 30 ∧
    ((analyze_sleep dataC1 "t").quality_factors.bind (fun q => q.hrv_recovery_score)) =
      some 85 ∧
    70 + ((30 : Rat) - 40) * 1.5 = 55 ∧
    (85 : Rat) ≠ 55 := by
  refine ⟨by with_unfolding_all decide, by with_unfolding_all decide, by norm_num, by norm_num⟩

/-- C1 (amended): whenever analyze_sleep selects a sleep period, the
reported hrv_recovery_score equals, rounded to one decimal: 100 if
avg > 40; 70 + (avg - 20) * 1.5 if 20 < avg ≤ 40; otherwise
max(30, avg * 2) — where avg is the mean of the period's strictly positive
RMSSD values (0 if there are none). -/
theorem c1_hrv_recovery_formula (data : List RawRecord) (now : String) (p : Period)
    (h : selectedPeriod data = some p) :
    ((analyze_sleep data now).quality_factors.bind (fun q => q.hrv_recovery_score)) =
      some (round1
        (if 40 < avgPos (p.records.map (fun r => r.rmssd)) then 100
         else if 20 < avgPos (p.records.map (fun r => r.rmssd)) then
           70 + (avgPos (p.records.map (fun r => r.rmssd)) - 20) * 1.5
         else max 30 (avgPos (p.records.map (fun r => r.rmssd)) * 2))) := by
  have hne : data ≠ [] := by
    intro he
    subst he
    simp [selectedPeriod, sleepPeriodsOf, normalizedOf, sleepScanAux, maxByLen] at h
  unfold analyze_sleep
  rw [if_neg hne, h]
  simp [hrvRecoveryScore]

theorem c1_hrv_recovery_formula_witness :
    ((analyze_sleep dataC1 "t").quality_factors.bind (fun q => q.hrv_recovery_score)) =
      some (round1
        (if 40 < avgPos (periodC1.records.map (fun r => r.rmssd)) then 100
         else if 20 < avgPos (periodC1.records.map (fun r => r.rmssd)) then
           70 + (avgPos (periodC1.records.map (fun r => r.rmssd)) - 20) * 1.5
         else max 30 (avgPos (periodC1.records.map (fun r => r.rmssd)) * 2))) :=
  c1_hrv_recovery_formula dataC1 "t" periodC1 (by with_unfolding_all decide)

/-- C3 counterexample: a raw record carrying only the heart_rate spelling
normalizes to hr = 0: the heart_rate alias is not accepted by the
wellness-engine normalizer. -/
theorem c3_heart_rate_alias_counterexample :
    heartRateUnderscoreRecord.heart_rate = some 80 ∧
    heartRateUnderscoreRecord.HR = none ∧
    heartRateUnderscoreRecord.heartRate = none ∧
    (normalizeRecord heartRateUnderscoreRecord).hr = 0 ∧
    (0 : Rat) ≠ 80 := by
  refine ⟨rfl, rfl, rfl, rfl, by norm_num⟩

/-- C3 (amended): normalization accepts the heart-rate spellings HR and
heartRate only (first present key in that priority order wins; heart_rate
is not recognised), defaults absent numeric fields to 0, absent motion to
the still value NO, absent timestamp to the empty string, and always
produces a fully populated canonical record. -/
theorem c3_normalization_policy (r : RawRecord) :
    (∀ v, r.HR = some v → (normalizeRecord r).hr = v) ∧
    (r.HR = none → ∀ v, r.heartRate = some v → (normalizeRecord r).hr = v) ∧
    (r.HR = none → r.heartRate = none → (normalizeRecord r).hr = 0) ∧
    (r.RMSSD = none → r.rmssd = none → (normalizeRecord r).rmssd = 0) ∧
    (r.Lux = none → r.lux = none → (normalizeRecord r).lux = 0) ∧
    (r.Temp = none → r.temperature = none → (normalizeRecord r).temp = 0) ∧
    (r.Motion = none → r.motion = none → (normalizeRecord r).motion = "NO") ∧
    (r.timestamp = none → (normalizeRecord r).timestamp = "") := by
  refine ⟨?_, ?_, ?_, ?_, ?_, ?_, ?_, ?_⟩
  · intro v hv; simp [normalizeRecord, hv]
  · intro h1 v hv; simp [normalizeRecord, h1, hv]
  · intro h1 h2; simp [normalizeRecord, h1, h2]
  · intro h1 h2; simp [normalizeRecord, h1, h2]
  · intro h1 h2; simp [normalizeRecord, h1, h2]
  · intro h1 h2; simp [normalizeRecord, h1, h2]
  · intro h1 h2; simp [normalizeRecord, h1, h2]; with_unfolding_all decide
  · intro h1; simp [normalizeRecord, h1]

theorem c3_normalization_policy_witness :
    (normalizeRecord { HR := some 72 }).hr = 72 ∧
    (normalizeRecord ({ } : RawRecord)).motion = "NO" :=
  ⟨(c3_normalization_policy { HR := some 72 }).1 72 rfl,
   (c3_normalization_policy ({ } : RawRecord)).2.2.2.2.2.2.1 rfl rfl⟩

/-- C4: for ten readings with motion NO, lux 2 and hr 55, the
whole-sequence positive-HR average is 55; no index satisfies the sleep
predicate (55 < 0.85 * 55 is false and hr is nonzero), so analyze_sleep
reports no sleep period: sleep_detected false, sleep_score 30,
sleep_quality Poor. -/
theorem c4_self_referential_average_rejects (now : String) :
    avgHrOf dataC4 = 55 ∧
    ((normalizedOf dataC4).all (fun d => ! isSleeping (avgHrOf dataC4) d)) = true ∧
    analyze_sleep dataC4 now =
      { sleep_detected := some false,
        sleep_start := none,
        sleep_end := none,
        total_duration_hours := some 0,
        sleep_score := 30,
        sleep_quality := "Poor",
        quality_factors := some { reason := some "No sleep period detected in sensor data" } } := by
  refine ⟨by with_unfolding_all decide, by with_unfolding_all decide, by with_unfolding_all rfl⟩

/-- C7: on the empty sequence each of the four entry points returns its
documented no-data mapping, with an explanatory error field and a
neutral/unknown tier, and no exception. -/
theorem c7_empty_input_contract (now : String) :
    analyze_sleep [] now =
      { error := some "No sensor data available",
        sleep_score := 0, sleep_quality := "Unknown" } ∧
    detect_sedentary [] now =
      { error := some "No sensor data available", sedentary_status := "unknown" } ∧
    score_hrv [] now =
      { error := some "No sensor data available", stress_level := "unknown" } ∧
    compute_burnout [] now =
      { error := some "No sensor data available", burnout_level := "unknown" } :=
  ⟨rfl, rfl, rfl, rfl⟩

theorem c4_self_referential_average_rejects_witness :
    avgHrOf dataC4 = 55 ∧
    ((normalizedOf dataC4).all (fun d => ! isSleeping (avgHrOf dataC4) d)) = true ∧
    analyze_sleep dataC4 "t" =
      { sleep_detected := some false,
        sleep_start := none,
        sleep_end := none,
        total_duration_hours := some 0,
        sleep_score := 30,
        sleep_quality := "Poor",
        quality_factors := some { reason := some "No sleep period detected in sensor data" } } :=
  c4_self_referential_average_rejects "t"

theorem c7_empty_input_contract_witness :
    analyze_sleep [] "t" =
      { error := some "No sensor data available",
        sleep_score := 0, sleep_quality := "Unknown" } ∧
    detect_sedentary [] "t" =
      { error := some "No sensor data available", sedentary_status := "unknown" } ∧
    score_hrv [] "t" =
      { error := some "No sensor data available", stress_level := "unknown" } ∧
    compute_burnout [] "t" =
      { error := some "No sensor data available", burnout_level := "unknown" } :=
  c7_empty_input_contract "t"

lemma hrvBase_level (a b : Rat) :
    (hrvBase a b).2 = "low" ∨ (hrvBase a b).2 = "medium" ∨ (hrvBase a b).2 = "high" := by
  unfold hrvBase
  split
  · left; rfl
  · split
    · left; rfl
    · split
      · right; left; rfl
      · split
        · right; right; rfl
        · split
          · left; rfl
          · split
            · right; left; rfl
            · right; right; rfl

lemma hrvAdjust_level (n : Nat) (v : Rat) (b : Rat × String)
    (hb : b.2 = "low" ∨ b.2 = "medium" ∨ b.2 = "high") :
    (hrvAdjust n v b).2 = "low" ∨ (hrvAdjust n v b).2 = "medium" ∨
      (hrvAdjust n v b).2 = "high" := by
  unfold hrvAdjust
  split
  · split
    · by_cases hl : (b.2 == "low") = true
      · simp [hl]
      · simp [hl]
    · exact hb
  · exact hb

lemma score_hrv_no_hr (data : List RawRecord) (now : String) (h : ¬data = [])
    (hv : hrValuesOf data = []) :
    score_hrv data now =
      { error := some "No valid heart rate data", stress_level := "unknown" } := by
  unfold score_hrv
  rw [if_neg h]
  dsimp only
  rw [if_pos hv]

lemma score_hrv_with_hr (data : List RawRecord) (now : String) (h : ¬data = [])
    (hv : ¬hrValuesOf data = []) :
    (score_hrv data now).error = none ∧
    ((score_hrv data now).stress_level = "low" ∨
     (score_hrv data now).stress_level = "medium" ∨
     (score_hrv data now).stress_level = "high") := by
  unfold score_hrv
  rw [if_neg h]
  dsimp only
  rw [if_neg hv]
  exact ⟨rfl, hrvAdjust_level _ _ _ (hrvBase_level _ _)⟩

lemma hrValues_empty_iff (data : List RawRecord) :
    hrValuesOf data = [] ↔ ∀ r ∈ data, r.HR.getD (r.heartRate.getD 0) ≤ 0 := by
  unfold hrValuesOf
  rw [List.filter_eq_nil_iff]
  constructor
  · intro hh r hr
    have := hh _ (List.mem_map_of_mem _ hr)
    simpa using this
  · intro hh x hx
    obtain ⟨r, hr, rfl⟩ := List.mem_map.mp hx
    simpa using hh r hr

/-- C8: on a non-empty sequence, score_hrv returns the no-valid-heart-rate
error result with stress unknown exactly when no reading has a strictly
positive heart-rate value; otherwise it scores the data with a stress tier
among low, medium, high. -/
theorem c8_hrv_no_signal (data : List RawRecord) (now : String) (h : data ≠ []) :
    (score_hrv data now =
        { error := some "No valid heart rate data", stress_level := "unknown" }
      ↔ ∀ r ∈ data, r.HR.getD (r.heartRate.getD 0) ≤ 0) ∧
    ((∃ r ∈ data, 0 < r.HR.getD (r.heartRate.getD 0)) →
      (score_hrv data now).error = none ∧
      ((score_hrv data now).stress_level = "low" ∨
       (score_hrv data now).stress_level = "medium" ∨
       (score_hrv data now).stress_level = "high")) := by
  by_cases hv : hrValuesOf data = []
  · refine ⟨⟨fun _ => (hrValues_empty_iff data).mp hv, fun _ => score_hrv_no_hr data now h hv⟩, ?_⟩
    rintro ⟨r, hr, hpos⟩
    exact absurd ((hrValues_empty_iff data).mp hv r hr) (not_le.mpr hpos)
  · refine ⟨⟨?_, ?_⟩, fun _ => score_hrv_with_hr data now h hv⟩
    · intro hS
      have he := congrArg HrvResult.error hS
      rw [(score_hrv_with_hr data now h hv).1] at he
      cases he
    · intro hall
      exact absurd ((hrValues_empty_iff data).mpr hall) hv

theorem c8_hrv_no_signal_witness :
    ((score_hrv dataW "t" =
        { error := some "No valid heart rate data", stress_level := "unknown" }
      ↔ ∀ r ∈ dataW, r.HR.getD (r.heartRate.getD 0) ≤ 0) ∧
    ((∃ r ∈ dataW, 0 < r.HR.getD (r.heartRate.getD 0)) →
      (score_hrv dataW "t").error = none ∧
      ((score_hrv dataW "t").stress_level = "low" ∨
       (score_hrv dataW "t").stress_level = "medium" ∨
       (score_hrv dataW "t").stress_level = "high"))) ∧
    (score_hrv dataW "t").error = none :=
  ⟨c8_hrv_no_signal dataW "t" (by decide),
   ((c8_hrv_no_signal dataW "t" (by decide)).2
     ⟨{ Motion := some "NO", Lux := some 300, HR := some 80, Temp := some 22 },
      by with_unfolding_all decide, by with_unfolding_all decide⟩).1⟩

/-- C9: compute_burnout weighs the component burnouts as
sleep*0.30 + sedentary*0.25 + stress*0.30 + environment*0.15 and grades
high at 70, medium at 40, low below; at components 50 / 10 / 50 / 10 the
weighted total is 34 with tier low. -/
theorem c9_burnout_weighting (data : List RawRecord) (now : String) (h : data ≠ []) :
    (compute_burnout data now).burnout_score =
      some (round1 (burnoutTotal
        (100 - (analyze_sleep data now).sleep_score)
        (sedentaryBurnoutOf ((detect_sedentary data now).sedentary_duration_minutes.getD 0))
        (100 - (score_hrv data now).hrv_score.getD 50)
        ((lightBurnoutOf (burnoutAvgLuxOf data) + tempBurnoutOf (burnoutAvgTempOf data)) / 2))) ∧
    (compute_burnout data now).burnout_level =
      burnoutLevelOf (burnoutTotal
        (100 - (analyze_sleep data now).sleep_score)
        (sedentaryBurnoutOf ((detect_sedentary data now).sedentary_duration_minutes.getD 0))
        (100 - (score_hrv data now).hrv_score.getD 50)
        ((lightBurnoutOf (burnoutAvgLuxOf data) + tempBurnoutOf (burnoutAvgTempOf data)) / 2)) ∧
    burnoutTotal 50 10 50 10 = 34 ∧
    burnoutLevelOf 34 = "low" := by
  unfold compute_burnout
  rw [if_neg h]
  refine ⟨rfl, rfl, by norm_num [burnoutTotal], by norm_num [burnoutLevelOf]⟩

theorem c9_burnout_weighting_witness :
    (compute_burnout dataW "t").burnout_score =
      some (round1 (burnoutTotal
        (100 - (analyze_sleep dataW "t").sleep_score)
        (sedentaryBurnoutOf ((detect_sedentary dataW "t").sedentary_duration_minutes.getD 0))
        (100 - (score_hrv dataW "t").hrv_score.getD 50)
        ((lightBurnoutOf (burnoutAvgLuxOf dataW) + tempBurnoutOf (burnoutAvgTempOf dataW)) / 2))) ∧
    (compute_burnout dataW "t").burnout_level =
      burnoutLevelOf (burnoutTotal
        (100 - (analyze_sleep dataW "t").sleep_score)
        (sedentaryBurnoutOf ((detect_sedentary dataW "t").sedentary_duration_minutes.getD 0))
        (100 - (score_hrv dataW "t").hrv_score.getD 50)
        ((lightBurnoutOf (burnoutAvgLuxOf dataW) + tempBurnoutOf (burnoutAvgTempOf dataW)) / 2)) ∧
    burnoutTotal 50 10 50 10 = 34 ∧
    burnoutLevelOf 34 = "low" :=
  c9_burnout_weighting dataW "t" (by decide)

lemma isSedentary_false_of_sleeping (avg : Rat) (d : SedRecord)
    (h : isSleepingSed avg d = true) : isSedentary d = false := by
  unfold isSleepingSed at h
  simp only [Bool.and_eq_true, decide_eq_true_eq] at h
  obtain ⟨⟨hm, hlux⟩, _⟩ := h
  have hn : ¬(10 : Rat) ≤ d.lux := not_le.mpr hlux
  simp [isSedentary, hm, hn]

lemma sedScan_eq_noskip (avg : Rat) :
    ∀ (l : List SedRecord) (i : Nat) (cur : Option Nat) (cnt : Nat),
      sedScanAux avg l i cur cnt = sedScanAuxNoSkip l i cur cnt := by
  intro l
  induction l with
  | nil => intro i cur cnt; rfl
  | cons d rest ih =>
    intro i cur cnt
    by_cases hs : isSleepingSed avg d = true
    · have hns := isSedentary_false_of_sleeping avg d hs
      simp only [sedScanAux, sedScanAuxNoSkip, hs, hns, if_true, Bool.false_eq_true, if_false]
      rw [ih]
    · by_cases hsed : isSedentary d = true
      · simp only [sedScanAux, sedScanAuxNoSkip, hs, hsed, Bool.false_eq_true, if_false, if_true]
        cases cur with
        | none => exact ih (i + 1) (some i) (cnt + 1)
        | some s => exact ih (i + 1) (some s) (cnt + 1)
      · simp only [sedScanAux, sedScanAuxNoSkip, hs, hsed, Bool.false_eq_true, if_false]
        rw [ih]

lemma sedentaryPeriods_eq_noskip (data : List RawRecord) :
    sedentaryPeriodsOf data = sedentaryPeriodsNoSkipOf data :=
  sedScan_eq_noskip (sedAvgHrOf data) (sedNormalizedOf data) 0 none 0

/-- C10: the sedentary periods and all quantities derived from them are
unchanged when the sleep-index exclusion branch is removed (a sleeping
index has lux < 10, so it fails the sedentary predicate and both scans
flush identically); the sleep-index set only affects the final
sedentary_status field, which reads sleeping when the last index satisfies
the sleep predicate. -/
theorem c10_sedentary_exclusion_refinement (data : List RawRecord) (now : String) :
    sedentaryPeriodsOf data = sedentaryPeriodsNoSkipOf data ∧
    eraseStatusSed (detect_sedentary data now) =
      eraseStatusSed (detectSedentaryNoExclusion data now) ∧
    (∀ last, (sedNormalizedOf data).getLast? = some last →
      (detect_sedentary data now).sedentary_status =
        (if isSleepingSed (sedAvgHrOf data) last then "sleeping"
         else (detectSedentaryNoExclusion data now).sedentary_status)) := by
  have hper := sedentaryPeriods_eq_noskip data
  refine ⟨hper, ?_, ?_⟩
  · by_cases h : data = []
    · subst h; rfl
    · unfold detect_sedentary detectSedentaryNoExclusion
      rw [if_neg h, if_neg h]
      simp only [eraseStatusSed, hper]
  · intro last hlast
    have h : data ≠ [] := by
      intro he
      subst he
      simp [sedNormalizedOf] at hlast
    unfold detect_sedentary detectSedentaryNoExclusion
    rw [if_neg h, if_neg h]
    dsimp only
    rw [hlast]

theorem c10_sedentary_exclusion_refinement_witness :
    (sedentaryPeriodsOf dataC5 = sedentaryPeriodsNoSkipOf dataC5 ∧
     eraseStatusSed (detect_sedentary dataC5 "t") =
       eraseStatusSed (detectSedentaryNoExclusion dataC5 "t")) ∧
    (detect_sedentary dataC5 "t").sedentary_status =
      (if isSleepingSed (sedAvgHrOf dataC5)
          { hr := 0, lux := 0, motion := "NO", timestamp := "" } then "sleeping"
       else (detectSedentaryNoExclusion dataC5 "t").sedentary_status) :=
  ⟨⟨(c10_sedentary_exclusion_refinement dataC5 "t").1,
    (c10_sedentary_exclusion_refinement dataC5 "t").2.1⟩,
   (c10_sedentary_exclusion_refinement dataC5 "t").2.2
     { hr := 0, lux := 0, motion := "NO", timestamp := "" }
     (by with_unfolding_all decide)⟩

/-- C5: for the sleep predicate over the normalized sequence, a maximal
run of exactly two satisfying indices k, k+1 (the neighbouring indices
failing the predicate or lying outside the sequence) contributes no sleep
period touching it, while a maximal run of three satisfying indices
k..k+2 is always recorded as a sleep period — the minimum period length 3
applies both mid-scan and at the end of the sequence. -/
theorem c5_minimum_period_length (data : List RawRecord) (k : Nat) :
    ((predAt (isSleeping (avgHrOf data)) (normalizedOf data) k = true →
      predAt (isSleeping (avgHrOf data)) (normalizedOf data) (k + 1) = true →
      (k = 0 ∨ predAt (isSleeping (avgHrOf data)) (normalizedOf data) (k - 1) = false) →
      predAt (isSleeping (avgHrOf data)) (normalizedOf data) (k + 2) = false →
      ∀ per ∈ sleepPeriodsOf data, per.end_idx < k ∨ k + 1 < per.start_idx)) ∧
    ((predAt (isSleeping (avgHrOf data)) (normalizedOf data) k = true →
      predAt (isSleeping (avgHrOf data)) (normalizedOf data) (k + 1) = true →
      predAt (isSleeping (avgHrOf data)) (normalizedOf data) (k + 2) = true →
      k + 3 ≤ (normalizedOf data).length →
      (k = 0 ∨ predAt (isSleeping (avgHrOf data)) (normalizedOf data) (k - 1) = false) →
      (k + 3 = (normalizedOf data).length ∨
        predAt (isSleeping (avgHrOf data)) (normalizedOf data) (k + 3) = false) →
      ∃ per ∈ sleepPeriodsOf data, per.start_idx = k ∧ per.end_idx = k + 2)) := by
  constructor
  · intro h0 h1 hleft h2 per hper
    rw [sleepPeriodsOf_eq_runsSpec] at hper
    obtain ⟨c1, c2, c3, c4, c5⟩ :=
      runsSpec_sound (isSleeping (avgHrOf data)) (normalizedOf data).length
        (normalizedOf data) le_rfl 0 per hper
    by_contra hcon
    push_neg at hcon
    obtain ⟨hek, hsk⟩ := hcon
    have hstart : k ≤ per.start_idx := by
      rcases hleft with hk0 | hkf
      · omega
      · rcases Nat.eq_zero_or_pos k with hk0 | hkpos
        · subst hk0
          rw [Nat.zero_sub] at hkf
          rw [h0] at hkf
          cases hkf
        · by_contra hlt
          push_neg at hlt
          have := c5 (k - 1) (by omega) (by omega)
          rw [Nat.sub_zero] at this
          rw [hkf] at this
          cases this
    have hend : per.end_idx ≤ k + 1 := by
      by_contra hlt
      push_neg at hlt
      have := c5 (k + 2) (by omega) (by omega)
      rw [Nat.sub_zero] at this
      rw [h2] at this
      cases this
    omega
  · intro h0 h1 h2 hlen hleft hright
    rw [sleepPeriodsOf_eq_runsSpec]
    have hall : ∀ j, j < 3 → predAt (isSleeping (avgHrOf data)) (normalizedOf data) (k - 0 + j) = true := by
      intro j hj
      have e : k - 0 + j = k + j := by omega
      rw [e]
      match j, hj with
      | 0, _ => rw [Nat.add_zero]; exact h0
      | 1, _ => exact h1
      | 2, _ => exact h2
    have hleft2 : k = 0 ∨ predAt (isSleeping (avgHrOf data)) (normalizedOf data) (k - 0 - 1) = false := by
      rw [Nat.sub_zero]
      exact hleft
    have hright2 : k + 3 = 0 + (normalizedOf data).length ∨
        predAt (isSleeping (avgHrOf data)) (normalizedOf data) (k - 0 + 3) = false := by
      rw [Nat.sub_zero, Nat.zero_add]
      exact hright
    obtain ⟨per, hmem, hs, he⟩ :=
      runsSpec_complete (isSleeping (avgHrOf data)) (normalizedOf data).length
        (normalizedOf data) le_rfl 0 k 3 (le_refl 3) (Nat.zero_le k)
        (by omega) hall hleft2 hright2
    exact ⟨per, hmem, hs, by omega⟩

theorem c5_minimum_period_length_witness :
    (∀ per ∈ sleepPeriodsOf dataC5, per.end_idx < 0 ∨ 0 + 1 < per.start_idx) ∧
    (∃ per ∈ sleepPeriodsOf dataC5, per.start_idx = 3 ∧ per.end_idx = 3 + 2) :=
  ⟨(c5_minimum_period_length dataC5 0).1
     (by with_unfolding_all decide) (by with_unfolding_all decide)
     (Or.inl rfl) (by with_unfolding_all decide),
   (c5_minimum_period_length dataC5 3).2
     (by with_unfolding_all decide) (by with_unfolding_all decide)
     (by with_unfolding_all decide) (by with_unfolding_all decide)
     (Or.inr (by with_unfolding_all decide)) (Or.inl (by with_unfolding_all decide))⟩

lemma rat_floor_le (x : Rat) : (x.floor : Rat) ≤ x := Rat.le_floor.mp le_rfl

lemma roundHalfEven_nonneg (x : Rat) (hx : 0 ≤ x) : 0 ≤ roundHalfEven x := by
  have hf : 0 ≤ x.floor := Rat.le_floor.mpr (by exact_mod_cast hx)
  unfold roundHalfEven
  dsimp only
  split
  · exact hf
  · split
    · omega
    · split
      · exact hf
      · omega

lemma roundHalfEven_le (x : Rat) (m : Int) (hx : x ≤ m) : roundHalfEven x ≤ m := by
  have hfle : x.floor ≤ m := by
    have h1 : (x.floor : Rat) ≤ (m : Rat) := le_trans (rat_floor_le x) hx
    exact_mod_cast h1
  unfold roundHalfEven
  dsimp only
  split
  · exact hfle
  · rename_i hr1
    split
    · rename_i hr2
      have hx2 : (x.floor : Rat) < x := by linarith
      have hlt : x.floor < m := by
        have h2 : (x.floor : Rat) < (m : Rat) := lt_of_lt_of_le hx2 hx
        exact_mod_cast h2
      omega
    · split
      · exact hfle
      · rename_i hr2 hr3
        have h12 : (1 : Rat)/2 ≤ x - x.floor := not_lt.mp hr1
        have hx2 : (x.floor : Rat) < x := by linarith
        have hlt : x.floor < m := by
          have h2 : (x.floor : Rat) < (m : Rat) := lt_of_lt_of_le hx2 hx
          exact_mod_cast h2
        omega

lemma round1_bounds (x : Rat) (h0 : 0 ≤ x) (h1 : x ≤ 100) :
    0 ≤ round1 x ∧ round1 x ≤ 100 := by
  unfold round1
  have hn : 0 ≤ roundHalfEven (x * 10) := roundHalfEven_nonneg _ (by linarith)
  have hm : roundHalfEven (x * 10) ≤ 1000 := roundHalfEven_le _ 1000 (by push_cast; linarith)
  constructor
  · apply div_nonneg _ (by norm_num)
    exact_mod_cast hn
  · rw [div_le_iff₀ (by norm_num : (0 : Rat) < 10)]
    have h2 : (roundHalfEven (x * 10) : Rat) ≤ 1000 := by exact_mod_cast hm
    linarith

lemma durationScore_bounds (h : Rat) : 20 ≤ durationScore h ∧ durationScore h ≤ 100 := by
  unfold durationScore
  split
  · norm_num
  · split
    · norm_num
    · split
      · rename_i h6
        exact ⟨le_max_left _ _, max_le (by norm_num) (by linarith)⟩
      · rename_i hn1 hn2 hn3
        have h6 : 6 ≤ h := not_lt.mp hn3
        have h7 : 7 ≤ h := by
          by_contra hc
          push_neg at hc
          exact hn2 (Or.inl ⟨h6, hc⟩)
        have h9 : 9 < h := by
          by_contra hc
          push_neg at hc
          exact hn1 ⟨h7, hc⟩
        exact ⟨le_max_left _ _, max_le (by norm_num) (by linarith)⟩

lemma envScore_bounds (a : Rat) : 30 ≤ envScore a ∧ envScore a ≤ 100 := by
  unfold envScore
  split
  · norm_num
  · split
    · norm_num
    · rename_i h1 h2
      have h20 : 20 ≤ a := by linarith [not_lt.mp h2]
      exact ⟨le_max_left _ _, max_le (by norm_num) (by linarith)⟩

lemma hrvRecoveryScore_bounds (a : Rat) :
    30 ≤ hrvRecoveryScore a ∧ hrvRecoveryScore a ≤ 100 := by
  unfold hrvRecoveryScore
  split
  · norm_num
  · split
    · rename_i h1 h2
      have h40 : a ≤ 40 := not_lt.mp h1
      constructor <;> linarith
    · rename_i h1 h2
      have h20 : a ≤ 20 := not_lt.mp h2
      exact ⟨le_max_left _ _, max_le (by norm_num) (by linarith)⟩

lemma ratio_bounds (a b : Nat) (hab : a ≤ b) :
    0 ≤ ((a : Rat) / (b : Rat)) * 100 ∧ ((a : Rat) / (b : Rat)) * 100 ≤ 100 := by
  rcases Nat.eq_zero_or_pos b with h0 | hpos
  · subst h0
    have ha : a = 0 := by omega
    subst ha
    norm_num
  · have hb : (0 : Rat) < b := by exact_mod_cast hpos
    have hr : (a : Rat) / (b : Rat) ≤ 1 := by
      rw [div_le_one hb]
      exact_mod_cast hab
    have hr0 : 0 ≤ (a : Rat) / (b : Rat) :=
      div_nonneg (by exact_mod_cast Nat.zero_le a) (le_of_lt hb)
    constructor <;> nlinarith

lemma sleep_score_bounds (data : List RawRecord) (now : String) :
    0 ≤ (analyze_sleep data now).sleep_score ∧ (analyze_sleep data now).sleep_score ≤ 100 := by
  unfold analyze_sleep
  split
  · norm_num
  · split
    · norm_num
    · rename_i per hper
      dsimp only
      have hd := durationScore_bounds ((per.records.length : Rat) / 60)
      have hc := ratio_bounds (per.records.filter (fun r => r.motion == "NO")).length
        per.records.length (List.length_filter_le _ _)
      have he := envScore_bounds
        ((per.records.map (fun r => r.lux)).sum / (per.records.length : Rat))
      have hh := hrvRecoveryScore_bounds (avgPos (per.records.map (fun r => r.rmssd)))
      exact round1_bounds _ (by nlinarith [hd.1, hc.1, he.1, hh.1])
        (by nlinarith [hd.2, hc.2, he.2, hh.2])

lemma analyze_sleep_qf_bounds (data : List RawRecord) (now : String) (q : QualityFactors)
    (hq : (analyze_sleep data now).quality_factors = some q) :
    (∀ x, q.duration_score = some x → 0 ≤ x ∧ x ≤ 100) ∧
    (∀ x, q.consistency_score = some x → 0 ≤ x ∧ x ≤ 100) ∧
    (∀ x, q.environment_score = some x → 0 ≤ x ∧ x ≤ 100) ∧
    (∀ x, q.hrv_recovery_score = some x → 0 ≤ x ∧ x ≤ 100) := by
  unfold analyze_sleep at hq
  split at hq
  · cases hq
  · split at hq
    · rw [Option.some.injEq] at hq
      subst hq
      refine ⟨?_, ?_, ?_, ?_⟩ <;> intro x hx <;> cases hx
    · rename_i per hper
      dsimp only at hq
      rw [Option.some.injEq] at hq
      subst hq
      have hd := durationScore_bounds ((per.records.length : Rat) / 60)
      have hc := ratio_bounds (per.records.filter (fun r => r.motion == "NO")).length
        per.records.length (List.length_filter_le _ _)
      have he := envScore_bounds
        ((per.records.map (fun r => r.lux)).sum / (per.records.length : Rat))
      have hh := hrvRecoveryScore_bounds (avgPos (per.records.map (fun r => r.rmssd)))
      refine ⟨?_, ?_, ?_, ?_⟩ <;> intro x hx <;> rw [Option.some.injEq] at hx <;> subst hx
      · exact round1_bounds _ (by linarith [hd.1]) hd.2
      · exact round1_bounds _ hc.1 hc.2
      · exact round1_bounds _ (by linarith [he.1]) he.2
      · exact round1_bounds _ (by linarith [hh.1]) hh.2

lemma hrvBase_bounds (a b : Rat) : 20 ≤ (hrvBase a b).1 ∧ (hrvBase a b).1 ≤ 95 := by
  unfold hrvBase
  split
  · norm_num
  · rename_i h60
    split
    · rename_i h40
      have h1 : a < 60 := not_le.mp h60
      constructor <;> simp <;> linarith
    · rename_i h40
      split
      · rename_i h20
        have h1 : a < 40 := not_le.mp h40
        constructor <;> simp <;> linarith
      · rename_i h20
        split
        · rename_i hp
          have h1 : a < 20 := not_le.mp h20
          constructor <;> simp <;> linarith
        · split
          · norm_num
          · split
            · norm_num
            · norm_num

lemma hrvAdjust_bounds (n : Nat) (v : Rat) (b : Rat × String)
    (hb : 20 ≤ b.1 ∧ b.1 ≤ 95) :
    20 ≤ (hrvAdjust n v b).1 ∧ (hrvAdjust n v b).1 ≤ 95 := by
  unfold hrvAdjust
  split
  · split
    · exact ⟨le_max_left _ _, max_le (by norm_num) (by linarith [hb.2])⟩
    · exact hb
  · exact hb

lemma score_hrv_score_bounds (data : List RawRecord) (now : String) (x : Rat)
    (hx : (score_hrv data now).hrv_score = some x) : 0 ≤ x ∧ x ≤ 100 := by
  unfold score_hrv at hx
  split at hx
  · cases hx
  · dsimp only at hx
    split at hx
    · cases hx
    · rw [Option.some.injEq] at hx
      subst hx
      have hb := hrvAdjust_bounds (hrValuesOf data).length
        ((List.map (fun x => (x - (hrValuesOf data).sum / ((hrValuesOf data).length : Rat)) ^ 2)
            (hrValuesOf data)).sum / ((hrValuesOf data).length : Rat))
        (hrvBase
          (if rmssdValuesOf data = [] then 0
           else (rmssdValuesOf data).sum / ((rmssdValuesOf data).length : Rat))
          ((hrValuesOf data).sum / ((hrValuesOf data).length : Rat)))
        (hrvBase_bounds _ _)
      exact round1_bounds _ (by linarith [hb.1]) (by linarith [hb.2])

lemma sedentaryBurnoutOf_bounds (m : Rat) :
    10 ≤ sedentaryBurnoutOf m ∧ sedentaryBurnoutOf m ≤ 90 := by
  unfold sedentaryBurnoutOf
  split
  · norm_num
  · split
    · norm_num
    · split
      · norm_num
      · split
        · norm_num
        · norm_num

lemma lightBurnoutOf_bounds (a : Rat) :
    10 ≤ lightBurnoutOf a ∧ lightBurnoutOf a ≤ 70 := by
  unfold lightBurnoutOf
  split
  · norm_num
  · split
    · norm_num
    · norm_num

lemma tempBurnoutOf_bounds (a : Rat) :
    10 ≤ tempBurnoutOf a ∧ tempBurnoutOf a ≤ 70 := by
  unfold tempBurnoutOf
  split
  · norm_num
  · split
    · norm_num
    · norm_num

lemma hrv_getD_bounds (data : List RawRecord) (now : String) :
    0 ≤ (score_hrv data now).hrv_score.getD 50 ∧
    (score_hrv data now).hrv_score.getD 50 ≤ 100 := by
  cases h : (score_hrv data now).hrv_score with
  | none => simp; norm_num
  | some y =>
    simp only [Option.getD_some]
    exact score_hrv_score_bounds data now y h

lemma compute_burnout_bounds (data : List RawRecord) (now : String) :
    (∀ x, (compute_burnout data now).burnout_score = some x → 0 ≤ x ∧ x ≤ 100) ∧
    (∀ c, (compute_burnout data now).contributing_factors = some c →
      (0 ≤ c.sleep_impact ∧ c.sleep_impact ≤ 100) ∧
      (0 ≤ c.sedentary_impact ∧ c.sedentary_impact ≤ 100) ∧
      (0 ≤ c.stress_impact ∧ c.stress_impact ≤ 100) ∧
      (0 ≤ c.environment_impact ∧ c.environment_impact ≤ 100)) := by
  have hsb := sleep_score_bounds data now
  have hsed := sedentaryBurnoutOf_bounds
    ((detect_sedentary data now).sedentary_duration_minutes.getD 0)
  have hst := hrv_getD_bounds data now
  have hl := lightBurnoutOf_bounds (burnoutAvgLuxOf data)
  have ht := tempBurnoutOf_bounds (burnoutAvgTempOf data)
  unfold compute_burnout
  split
  · constructor
    · intro x hx; cases hx
    · intro c hc; cases hc
  · dsimp only
    constructor
    · intro x hx
      rw [Option.some.injEq] at hx
      subst hx
      unfold burnoutTotal
      exact round1_bounds _
        (by nlinarith [hsb.1, hsb.2, hsed.1, hsed.2, hst.1, hst.2, hl.1, hl.2, ht.1, ht.2])
        (by nlinarith [hsb.1, hsb.2, hsed.1, hsed.2, hst.1, hst.2, hl.1, hl.2, ht.1, ht.2])
    · intro c hc
      rw [Option.some.injEq] at hc
      subst hc
      refine ⟨?_, ?_, ?_, ?_⟩
      · exact round1_bounds _ (by linarith [hsb.2]) (by linarith [hsb.1])
      · exact round1_bounds _ (by linarith [hsed.1]) (by linarith [hsed.2])
      · exact round1_bounds _ (by linarith [hst.2]) (by linarith [hst.1])
      · exact round1_bounds _ (by linarith [hl.1, ht.1]) (by linarith [hl.2, ht.2])

/-- C6: every numeric score field produced by the four entry points —
sleep_score and the four sleep sub-scores, hrv_score, burnout_score and
the four component burnout impacts — lies within [0, 100]. -/
theorem c6_scores_within_range (data : List RawRecord) (now : String) :
    (0 ≤ (analyze_sleep data now).sleep_score ∧
      (analyze_sleep data now).sleep_score ≤ 100) ∧
    (∀ q, (analyze_sleep data now).quality_factors = some q →
      (∀ x, q.duration_score = some x → 0 ≤ x ∧ x ≤ 100) ∧
      (∀ x, q.consistency_score = some x → 0 ≤ x ∧ x ≤ 100) ∧
      (∀ x, q.environment_score = some x → 0 ≤ x ∧ x ≤ 100) ∧
      (∀ x, q.hrv_recovery_score = some x → 0 ≤ x ∧ x ≤ 100)) ∧
    (∀ x, (score_hrv data now).hrv_score = some x → 0 ≤ x ∧ x ≤ 100) ∧
    (∀ x, (compute_burnout data now).burnout_score = some x → 0 ≤ x ∧ x ≤ 100) ∧
    (∀ c, (compute_burnout data now).contributing_factors = some c →
      (0 ≤ c.sleep_impact ∧ c.sleep_impact ≤ 100) ∧
      (0 ≤ c.sedentary_impact ∧ c.sedentary_impact ≤ 100) ∧
      (0 ≤ c.stress_impact ∧ c.stress_impact ≤ 100) ∧
      (0 ≤ c.environment_impact ∧ c.environment_impact ≤ 100)) :=
  ⟨sleep_score_bounds data now,
   fun q hq => analyze_sleep_qf_bounds data now q hq,
   fun x hx => score_hrv_score_bounds data now x hx,
   (compute_burnout_bounds data now).1,
   (compute_burnout_bounds data now).2⟩

theorem c6_scores_within_range_witness :
    (0 ≤ (analyze_sleep dataC1 "t").sleep_score ∧
      (analyze_sleep dataC1 "t").sleep_score ≤ 100) ∧
    ((0 ≤ (85 : Rat) ∧ (85 : Rat) ≤ 100) ∧
     (0 ≤ (50 : Rat) ∧ (50 : Rat) ≤ 100)) :=
  ⟨(c6_scores_within_range dataC1 "t").1,
   ((c6_scores_within_range dataC1 "t").2.1
      { reason := none,
        duration_score := some 20,
        consistency_score := some 100,
        environment_score := some 100,
        hrv_recovery_score := some 85 }
      (by with_unfolding_all decide)).2.2.2 85 rfl,
   (c6_scores_within_range dataW "t").2.2.1 50 (by with_unfolding_all decide)⟩

end Wellness
